import Mathlib

/-!
Shallow embedding of the Crosshair-Overlay core (src-tauri/src/overlay.rs and
src-tauri/src/lib.rs) and proofs about its specification.

Conventions of the embedding:
* Rust `i32` values are modelled as `Int`; every arithmetic operation of the
  source is performed through `wrap32`/`add32`/`sub32`/`mul32`, the two's
  complement wrap-around of 32-bit arithmetic.
* Rust `u32` colors are modelled as `Nat` (the source only ever shifts and
  masks them inside the 32-bit range).
* The two `f32` fields of `CrosshairConfig` (`opacity` and the rotation in
  degrees, embedded as `rot_degrees`) are carried as their IEEE-754 bit
  patterns (`Nat`): the state operations only store and copy them.  The one
  place where the rotation value is computed with — `rotate_point` inside
  `draw_classic_crosshair` — is embedded for the zero-rotation case, where
  IEEE-754 arithmetic is exact (see `rotZero`).
* GDI drawing calls are embedded as an emitted list of `DrawOp` values; the
  pen currently selected into the device context is threaded explicitly.
* File system and serde are embedded by passing the read result and the
  parse functions as parameters.
-/

namespace Crosshair

/-- Two's complement wrap-around into the `i32` range `[-2^31, 2^31)`. -/
def wrap32 (n : Int) : Int := (n + 2 ^ 31) % 2 ^ 32 - 2 ^ 31

/-- `i32` addition. -/
def add32 (a b : Int) : Int := wrap32 (a + b)

/-- `i32` subtraction. -/
def sub32 (a b : Int) : Int := wrap32 (a - b)

/-- `i32` multiplication. -/
def mul32 (a b : Int) : Int := wrap32 (a * b)

theorem wrap32_eq_self {n : Int} (h1 : -(2 ^ 31) ≤ n) (h2 : n < 2 ^ 31) :
    wrap32 n = n := by
  unfold wrap32
  have h3 : (0 : Int) ≤ n + 2 ^ 31 := by omega
  have h4 : n + 2 ^ 31 < 2 ^ 32 := by omega
  rw [Int.emod_eq_of_lt h3 h4]
  omega

/-- Crosshair style variants, from `enum CrosshairStyle` in overlay.rs. -/
inductive CrosshairStyle where
  | Classic
  | Dot
  | Circle
  | Square
  | TShape
  | Custom
deriving DecidableEq

/-- A custom line, from `struct CrosshairLine` in overlay.rs. -/
structure CrosshairLine where
  start_x : Int
  start_y : Int
  end_x : Int
  end_y : Int
  thickness : Int
  color : Nat
deriving DecidableEq

/-- The configuration entity, from `struct CrosshairConfig` in overlay.rs.
`opacity` and `rot_degrees` (source field `rotation`, an `f32` in degrees)
are carried as IEEE-754 bit patterns; the pattern `0` is the value `+0.0`. -/
structure CrosshairConfig where
  enabled : Bool
  size : Int
  thickness : Int
  gap : Int
  color : Nat
  outline_color : Nat
  outline_thickness : Int
  show_dot : Bool
  dot_size : Int
  show_outline : Bool
  opacity : Nat
  style : CrosshairStyle
  position_x : Int
  position_y : Int
  rot_degrees : Nat
  t_length : Int
  shadow_enabled : Bool
  shadow_color : Nat
  shadow_offset : Int
  lines : List CrosshairLine
deriving DecidableEq

/-- `CrosshairConfig::default()` from overlay.rs; `opacity = 1.0f32` is the
bit pattern `0x3F800000`, `rotation = 0.0f32` is the bit pattern `0`. -/
def defaultConfig : CrosshairConfig where
  enabled := true
  size := 10
  thickness := 2
  gap := 5
  color := 0x00FF00
  outline_color := 0x000000
  outline_thickness := 1
  show_dot := true
  dot_size := 2
  show_outline := true
  opacity := 0x3F800000
  style := CrosshairStyle.Classic
  position_x := 0
  position_y := 0
  rot_degrees := 0
  t_length := 15
  shadow_enabled := false
  shadow_color := 0x000000
  shadow_offset := 2
  lines := []

/-- The shared overlay state, from `struct OverlayState` in overlay.rs.
`osWindowSize` is not a field of the Rust struct: it models the dimension
(the same on both axes) of the native window owned by the handle, which the
source manipulates through `CreateWindowExW`/`SetWindowPos`. -/
structure OverlayState where
  hwnd : Bool
  config : CrosshairConfig
  osWindowSize : Int
deriving DecidableEq

/-- The window size computation `(size + gap) * 2 + thickness * 2 + 20`,
as written in `create_overlay_window` and `update_config` in overlay.rs. -/
def windowSizeOf (c : CrosshairConfig) : Int :=
  add32 (add32 (mul32 (add32 c.size c.gap) 2) (mul32 c.thickness 2)) 20

/-- `create_overlay_window` from overlay.rs, restricted to its effect on the
modelled state: the spawned thread creates the native window sized from the
DEFAULT config's bounding box and publishes the handle into the state. -/
def create_overlay_window (s : OverlayState) : OverlayState :=
  { s with hwnd := true, osWindowSize := windowSizeOf defaultConfig }

/-- `update_config` from overlay.rs.  `setWindowPosOk` models the success of
the one fallible native call, `SetWindowPos` (whose failure is propagated
with `?`); the `SetLayeredWindowAttributes` and `InvalidateRect` results are
discarded by the source (`let _ =`).  Returns the `Result` together with the
state left behind in the global mutex. -/
def update_config (setWindowPosOk : Bool) (c : CrosshairConfig)
    (s : OverlayState) : Except Unit Unit × OverlayState :=
  let old_size := windowSizeOf s.config
  let s1 : OverlayState := { s with config := c }
  if s1.hwnd then
    let new_size := windowSizeOf c
    if new_size ≠ old_size then
      if setWindowPosOk then (Except.ok (), { s1 with osWindowSize := new_size })
      else (Except.error (), s1)
    else (Except.ok (), s1)
  else (Except.ok (), s1)

/-- `toggle_overlay` from overlay.rs: sets `config.enabled` and requests a
repaint (`InvalidateRect`, result discarded). -/
def toggle_overlay (enabled : Bool) (s : OverlayState) :
    Except Unit Unit × OverlayState :=
  (Except.ok (), { s with config := { s.config with enabled := enabled } })

/-- `get_config` from overlay.rs: clones the stored config out of the mutex. -/
def get_config (s : OverlayState) : CrosshairConfig :=
  s.config

/-! ### Rendering model -/

/-- A GDI pen: `CreatePen(PS_SOLID, thickness, COLORREF(color))`. -/
structure Pen where
  thickness : Int
  color : Nat
deriving DecidableEq

/-- The RGB→BGR repacking performed before every `CreatePen`/
`CreateSolidBrush` in overlay.rs: the 24-bit color is split into byte
channels and repacked as `b << 16 | g << 8 | r`. -/
def bgr (c : Nat) : Nat :=
  let r := (c >>> 16) &&& 0xFF
  let g := (c >>> 8) &&& 0xFF
  let b := c &&& 0xFF
  (b <<< 16) ||| (g <<< 8) ||| r

/-- A drawing primitive issued against the device context.  `line` is a
`MoveToEx`/`LineTo` pair, `ellipseOutline` an `Ellipse` call with the null
brush selected; both record the pen in effect at the call. -/
inductive DrawOp where
  | line (x1 y1 x2 y2 : Int) (pen : Pen)
  | ellipseOutline (l t r b : Int) (pen : Pen)
deriving DecidableEq

/-- Round-to-nearest, ties-to-even, of `a` to a multiple of `ulp`. -/
def roundNE (a ulp : Nat) : Nat :=
  let q := a / ulp
  let r := a % ulp
  if 2 * r < ulp then q * ulp
  else if ulp < 2 * r then (q + 1) * ulp
  else if q % 2 = 0 then q * ulp else (q + 1) * ulp

/-- Floor of the base-2 logarithm, by structural recursion on a fuel bound
(64 steps cover every 32-bit magnitude). -/
def log2fuel : Nat → Nat → Nat
  | 0, _ => 0
  | f + 1, n => if n ≤ 1 then 0 else log2fuel f (n / 2) + 1

/-- The value of `(n : i32) as f32`: IEEE-754 binary32 has a 24-bit
significand, so an integer of magnitude at most `2^24` converts exactly and
a larger one is rounded to the nearest multiple of its unit in the last
place (`2^(⌊log2 a⌋ - 23)`), ties to even. -/
def roundF32 (n : Int) : Int :=
  let a := n.natAbs
  if a ≤ 2 ^ 24 then n
  else n.sign * (roundNE a (2 ^ (log2fuel 64 a - 23)) : Nat)

/-- The value of `(f : f32) as i32` for an integer-valued `f`: Rust float→int
casts saturate at the target type's bounds. -/
def satI32 (n : Int) : Int :=
  max (-(2 ^ 31)) (min (2 ^ 31 - 1) n)

/-- The `rotate_point` closure of `draw_classic_crosshair`, partially
evaluated at rotation `0`.  For the f32 value `0.0`, `0.0 * π / 180.0 = 0.0`,
`cos 0.0 = 1.0` and `sin 0.0 = 0.0` exactly; multiplication by `1.0` and
by `0.0` and the final subtraction are then exact, so the computed
coordinate is `center + ((dx as f32) as i32)` with `dx = x - center`. -/
def rotZero (cx cy x y : Int) : Int × Int :=
  (add32 cx (satI32 (roundF32 (sub32 x cx))),
   add32 cy (satI32 (roundF32 (sub32 y cy))))

/-- `draw_classic_crosshair` from overlay.rs, with the `rotate_point`
closure abstracted as `rot` (its f32 trigonometry lives outside the integer
embedding; `rotZero cx cy` is its exact instance at rotation `0`).  `pen`
is the pen currently selected into the device context. -/
def draw_classic_crosshair (rot : Int → Int → Int × Int) (pen : Pen)
    (cx cy gap size : Int) : List DrawOp :=
  let top1 := rot cx (sub32 (sub32 cy gap) size)
  let top2 := rot cx (sub32 cy gap)
  let bot1 := rot cx (add32 cy gap)
  let bot2 := rot cx (add32 (add32 cy gap) size)
  let lft1 := rot (sub32 (sub32 cx gap) size) cy
  let lft2 := rot (sub32 cx gap) cy
  let rgt1 := rot (add32 cx gap) cy
  let rgt2 := rot (add32 (add32 cx gap) size) cy
  [DrawOp.line top1.1 top1.2 top2.1 top2.2 pen,
   DrawOp.line bot1.1 bot1.2 bot2.1 bot2.2 pen,
   DrawOp.line lft1.1 lft1.2 lft2.1 lft2.2 pen,
   DrawOp.line rgt1.1 rgt1.2 rgt2.1 rgt2.2 pen]

/-- `draw_circle_crosshair` from overlay.rs. -/
def draw_circle_crosshair (rot : Int → Int → Int × Int) (pen : Pen)
    (cx cy gap size : Int) : List DrawOp :=
  let radius := add32 size gap
  DrawOp.ellipseOutline (sub32 cx radius) (sub32 cy radius)
      (add32 cx radius) (add32 cy radius) pen ::
    (if 0 < gap then draw_classic_crosshair rot pen cx cy gap size else [])

/-- `draw_square_crosshair` from overlay.rs. -/
def draw_square_crosshair (rot : Int → Int → Int × Int) (pen : Pen)
    (cx cy gap size : Int) : List DrawOp :=
  let h := add32 size gap
  [DrawOp.line (sub32 cx h) (sub32 cy h) (add32 cx h) (sub32 cy h) pen,
   DrawOp.line (add32 cx h) (sub32 cy h) (add32 cx h) (add32 cy h) pen,
   DrawOp.line (add32 cx h) (add32 cy h) (sub32 cx h) (add32 cy h) pen,
   DrawOp.line (sub32 cx h) (add32 cy h) (sub32 cx h) (sub32 cy h) pen] ++
    (if 0 < gap then draw_classic_crosshair rot pen cx cy gap size else [])

/-- `draw_t_crosshair` from overlay.rs. -/
def draw_t_crosshair (pen : Pen) (cx cy gap size t_length : Int) :
    List DrawOp :=
  [DrawOp.line (sub32 cx t_length) (sub32 (sub32 cy gap) size)
      (add32 cx t_length) (sub32 (sub32 cy gap) size) pen,
   DrawOp.line cx (sub32 (sub32 cy gap) size) cx (sub32 cy gap) pen] ++
    (if 0 < gap then
      [DrawOp.line cx (add32 cy gap) cx (add32 (add32 cy gap) size) pen,
       DrawOp.line (sub32 (sub32 cx gap) size) cy (sub32 cx gap) cy pen,
       DrawOp.line (add32 cx gap) cy (add32 (add32 cx gap) size) cy pen]
     else [])

/-- `draw_custom_crosshair` from overlay.rs.  In a non-shadow pass, each
line creates and selects its own pen (the line's thickness and repacked
color) and the previous pen is restored afterwards; in the shadow pass the
already-selected pen `cur` is used for every segment. -/
def draw_custom_crosshair (cur : Pen) (cx cy : Int)
    (ls : List CrosshairLine) (isShadow : Bool) : List DrawOp :=
  match ls with
  | [] => []
  | l :: rest =>
    let pen := if isShadow then cur else Pen.mk l.thickness (bgr l.color)
    DrawOp.line (add32 cx l.start_x) (add32 cy l.start_y)
        (add32 cx l.end_x) (add32 cy l.end_y) pen ::
      draw_custom_crosshair cur cx cy rest isShadow

/-- `draw_crosshair_shape` from overlay.rs: style dispatch of one shape
pass.  `Dot` contributes nothing (handled by the dot step of
`draw_crosshair`). -/
def draw_crosshair_shape (rot : Int → Int → Int × Int) (cur : Pen)
    (cx cy : Int) (c : CrosshairConfig) (isShadow : Bool) : List DrawOp :=
  match c.style with
  | CrosshairStyle.Classic => draw_classic_crosshair rot cur cx cy c.gap c.size
  | CrosshairStyle.Dot => []
  | CrosshairStyle.Circle => draw_circle_crosshair rot cur cx cy c.gap c.size
  | CrosshairStyle.Square => draw_square_crosshair rot cur cx cy c.gap c.size
  | CrosshairStyle.TShape =>
      draw_t_crosshair cur cx cy c.gap c.size c.t_length
  | CrosshairStyle.Custom =>
      draw_custom_crosshair cur cx cy c.lines isShadow

/-! ### Persistence model (lib.rs) -/

/-- A preset, from `struct CrosshairPreset` in lib.rs. -/
structure CrosshairPreset where
  id : String
  name : String
  config : CrosshairConfig
  created_at : String
deriving DecidableEq

/-- `struct FavoritesData` in lib.rs. -/
structure FavoritesData where
  presets : List CrosshairPreset
deriving DecidableEq

/-- The outcome of probing and reading a file: the file does not exist, the
read fails with an error message, or the content is obtained. -/
inductive FileRead where
  | absent
  | readFail (e : String)
  | content (s : String)

/-- `load_config` from lib.rs.  `parse` stands for
`serde_json::from_str::<CrosshairConfig>`, returning either the value or the
serde error message.  An absent file yields the default config; a read
failure and a parse failure are both propagated with `map_err(...)?`. -/
def load_config (parse : String → Except String CrosshairConfig)
    (file : FileRead) : Except String CrosshairConfig :=
  match file with
  | FileRead.absent => Except.ok defaultConfig
  | FileRead.readFail e => Except.error e
  | FileRead.content s =>
    match parse s with
    | Except.ok c => Except.ok c
    | Except.error e => Except.error e

/-- `load_presets` from lib.rs.  An absent file yields the empty list; a
parse failure falls back to the empty `FavoritesData` (`unwrap_or`); only a
read failure is propagated. -/
def load_presets (parse : String → Except String FavoritesData)
    (file : FileRead) : Except String (List CrosshairPreset) :=
  match file with
  | FileRead.absent => Except.ok []
  | FileRead.readFail e => Except.error e
  | FileRead.content s =>
    Except.ok ((parse s).toOption.getD (FavoritesData.mk [])).presets

/-- The list transformation at the heart of `save_preset` in lib.rs:
`presets.retain(|p| p.id != preset.id)` followed by `presets.push(preset)`. -/
def save_preset_apply (existing : List CrosshairPreset)
    (p : CrosshairPreset) : List CrosshairPreset :=
  (existing.filter fun q => q.id ≠ p.id) ++ [p]

/-- `save_preset` from lib.rs, up to the final write: load the existing
presets (absent file or parse failure → empty list, read failure
propagated), remove any entry with the saved preset's id, append the
preset.  The returned list is what is serialized back to the file. -/
def save_preset (parse : String → Except String FavoritesData)
    (file : FileRead) (p : CrosshairPreset) :
    Except String (List CrosshairPreset) :=
  match file with
  | FileRead.absent => Except.ok (save_preset_apply [] p)
  | FileRead.readFail e => Except.error e
  | FileRead.content s =>
    Except.ok (save_preset_apply
      ((parse s).toOption.getD (FavoritesData.mk [])).presets p)

/-- `delete_preset` from lib.rs, up to the final write: absent file is a
successful no-op; otherwise every entry with the given id is removed. -/
def delete_preset (parse : String → Except String FavoritesData)
    (file : FileRead) (id : String) :
    Except String (Option (List CrosshairPreset)) :=
  match file with
  | FileRead.absent => Except.ok none
  | FileRead.readFail e => Except.error e
  | FileRead.content s =>
    Except.ok (some
      (((parse s).toOption.getD (FavoritesData.mk [])).presets.filter
        fun p => p.id ≠ id))

/-! ### Concrete fixtures used by witnesses and counterexamples -/

/-- A parse function that fails on every input, standing for
`serde_json::from_str` applied to malformed config content. -/
def failParseConfig : String → Except String CrosshairConfig :=
  fun _ => Except.error "expected value"

/-- A parse function that fails on every input, standing for
`serde_json::from_str` applied to malformed presets content. -/
def failParseFavorites : String → Except String FavoritesData :=
  fun _ => Except.error "expected value"

/-- A stored preset with id `p1`. -/
def presetA : CrosshairPreset :=
  CrosshairPreset.mk "p1" "old name" defaultConfig "2024-01-01"

/-- A stored preset with id `p2`. -/
def presetB : CrosshairPreset :=
  CrosshairPreset.mk "p2" "other" defaultConfig "2024-01-02"

/-- A second save of id `p1` with a different name and config. -/
def presetA2 : CrosshairPreset :=
  CrosshairPreset.mk "p1" "new name" { defaultConfig with size := 7 }
    "2024-02-01"

/-- A parse function returning a fixed stored preset list. -/
def parsePresetsAB : String → Except String FavoritesData :=
  fun _ => Except.ok (FavoritesData.mk [presetA, presetB])

/-- A Custom-style config with two custom lines. -/
def cfgCustom : CrosshairConfig :=
  { defaultConfig with
      style := CrosshairStyle.Custom,
      lines := [CrosshairLine.mk 3 4 5 6 2 0x112233,
                CrosshairLine.mk (-7) 8 (-9) 10 1 0x445566] }

/-- A TShape-style config with the default geometry. -/
def cfgTShape : CrosshairConfig :=
  { defaultConfig with style := CrosshairStyle.TShape }

/-- A TShape-style config whose gap lies beyond the exactly-representable
integer range of f32. -/
def cfgTBig : CrosshairConfig :=
  { defaultConfig with
      style := CrosshairStyle.TShape, gap := 16777216, size := 1 }

/-! ### Helper lemmas -/

theorem roundF32_eq_self {n : Int} (h : n.natAbs ≤ 2 ^ 24) :
    roundF32 n = n := by
  unfold roundF32
  simp [h]
  intro h2
  omega

theorem satI32_eq_self {n : Int} (h1 : -(2 ^ 31) ≤ n) (h2 : n < 2 ^ 31) :
    satI32 n = n := by
  unfold satI32
  omega

theorem rotZero_eq_id (cx cy x y : Int)
    (hx : (x - cx).natAbs ≤ 2 ^ 24) (hy : (y - cy).natAbs ≤ 2 ^ 24)
    (hx2 : x.natAbs < 2 ^ 31) (hy2 : y.natAbs < 2 ^ 31)
    (hcx : cx.natAbs < 2 ^ 31) (hcy : cy.natAbs < 2 ^ 31) :
    rotZero cx cy x y = (x, y) := by
  unfold rotZero add32 sub32
  rw [wrap32_eq_self (show -(2 ^ 31) ≤ x - cx by omega)
        (show x - cx < 2 ^ 31 by omega),
      wrap32_eq_self (show -(2 ^ 31) ≤ y - cy by omega)
        (show y - cy < 2 ^ 31 by omega),
      roundF32_eq_self hx, roundF32_eq_self hy,
      satI32_eq_self (show -(2 ^ 31) ≤ x - cx by omega) (by omega),
      satI32_eq_self (show -(2 ^ 31) ≤ y - cy by omega) (by omega),
      show cx + (x - cx) = x by ring, show cy + (y - cy) = y by ring,
      wrap32_eq_self (by omega) (by omega),
      wrap32_eq_self (by omega) (by omega)]

theorem draw_custom_length (cur : Pen) (cx cy : Int)
    (ls : List CrosshairLine) (sh : Bool) :
    (draw_custom_crosshair cur cx cy ls sh).length = ls.length := by
  induction ls with
  | nil => rfl
  | cons l rest ih => simp [draw_custom_crosshair, ih]

theorem draw_custom_get? (cur : Pen) (cx cy : Int)
    (ls : List CrosshairLine) (sh : Bool) (i : Nat) :
    (draw_custom_crosshair cur cx cy ls sh).get? i =
      (ls.get? i).map fun l =>
        DrawOp.line (add32 cx l.start_x) (add32 cy l.start_y)
          (add32 cx l.end_x) (add32 cy l.end_y)
          (if sh then cur else Pen.mk l.thickness (bgr l.color)) := by
  induction ls generalizing i with
  | nil => simp [draw_custom_crosshair]
  | cons l rest ih =>
    cases i with
    | zero => simp [draw_custom_crosshair]
    | succ j => simpa [draw_custom_crosshair] using ih j

/-! ### Claims about the control surface -/

/-- C1: for every config `c` (and any prior state and any outcome of the
native calls), `update_config c` stores `c` wholesale and a subsequent
`get_config` returns exactly `c`. -/
theorem update_then_get_roundtrip (ok : Bool) (c : CrosshairConfig)
    (s : OverlayState) :
    get_config (update_config ok c s).2 = c := by
  unfold update_config get_config
  dsimp only
  split_ifs <;> rfl

/-- C2: `toggle_overlay enabled` sets the stored config's `enabled` field to
the argument and leaves every other field of the stored config unchanged. -/
theorem toggle_only_enabled (e : Bool) (s : OverlayState) :
    ((toggle_overlay e s).2).config.enabled = e ∧
    ((toggle_overlay e s).2).config.size = s.config.size ∧
    ((toggle_overlay e s).2).config.thickness = s.config.thickness ∧
    ((toggle_overlay e s).2).config.gap = s.config.gap ∧
    ((toggle_overlay e s).2).config.color = s.config.color ∧
    ((toggle_overlay e s).2).config.outline_color = s.config.outline_color ∧
    ((toggle_overlay e s).2).config.outline_thickness
      = s.config.outline_thickness ∧
    ((toggle_overlay e s).2).config.show_dot = s.config.show_dot ∧
    ((toggle_overlay e s).2).config.dot_size = s.config.dot_size ∧
    ((toggle_overlay e s).2).config.show_outline = s.config.show_outline ∧
    ((toggle_overlay e s).2).config.opacity = s.config.opacity ∧
    ((toggle_overlay e s).2).config.style = s.config.style ∧
    ((toggle_overlay e s).2).config.position_x = s.config.position_x ∧
    ((toggle_overlay e s).2).config.position_y = s.config.position_y ∧
    ((toggle_overlay e s).2).config.rot_degrees = s.config.rot_degrees ∧
    ((toggle_overlay e s).2).config.t_length = s.config.t_length ∧
    ((toggle_overlay e s).2).config.shadow_enabled
      = s.config.shadow_enabled ∧
    ((toggle_overlay e s).2).config.shadow_color = s.config.shadow_color ∧
    ((toggle_overlay e s).2).config.shadow_offset = s.config.shadow_offset ∧
    ((toggle_overlay e s).2).config.lines = s.config.lines := by
  exact ⟨rfl, rfl, rfl, rfl, rfl, rfl, rfl, rfl, rfl, rfl, rfl, rfl, rfl,
    rfl, rfl, rfl, rfl, rfl, rfl, rfl⟩

/-- C10: `update_config` is not atomic on platform failure: the stored
config is replaced before `SetWindowPos` is attempted, so when the resize is
needed and fails, `update_config` returns an error yet a subsequent
`get_config` returns the new config. -/
theorem update_not_atomic (c : CrosshairConfig) (s : OverlayState)
    (hw : s.hwnd = true)
    (hsz : windowSizeOf c ≠ windowSizeOf s.config) :
    (update_config false c s).1 = Except.error () ∧
    get_config (update_config false c s).2 = c := by
  unfold update_config get_config
  simp [hw, hsz]

/-- Witness for `update_not_atomic` at a concrete state and config. -/
theorem update_not_atomic_witness :
    (update_config false { defaultConfig with size := 11 }
        (OverlayState.mk true defaultConfig 54)).1 = Except.error () ∧
    get_config (update_config false { defaultConfig with size := 11 }
        (OverlayState.mk true defaultConfig 54)).2
      = { defaultConfig with size := 11 } :=
  update_not_atomic { defaultConfig with size := 11 }
    (OverlayState.mk true defaultConfig 54) rfl (by decide)

/-- C9: the window bounding box is `2*(size+gap) + 2*thickness + 20` on each
axis, both at window creation (from the default config, where it is `54`)
and on a successful update; the bounds on the geometry fields keep the
32-bit arithmetic away from wrap-around. -/
theorem window_bounding_box (c : CrosshairConfig) (s : OverlayState)
    (hs : c.size.natAbs ≤ 2 ^ 20) (hg : c.gap.natAbs ≤ 2 ^ 20)
    (ht : c.thickness.natAbs ≤ 2 ^ 20)
    (hw : s.hwnd = true)
    (hinv : s.osWindowSize = windowSizeOf s.config) :
    (create_overlay_window s).osWindowSize = 54 ∧
    windowSizeOf c = 2 * (c.size + c.gap) + 2 * c.thickness + 20 ∧
    ((update_config true c s).2).osWindowSize = windowSizeOf c := by
  refine ⟨?_, ?_, ?_⟩
  · show windowSizeOf defaultConfig = 54
    decide
  · have h1 : add32 c.size c.gap = c.size + c.gap := by
      unfold add32; exact wrap32_eq_self (by omega) (by omega)
    have h2 : mul32 (c.size + c.gap) 2 = (c.size + c.gap) * 2 := by
      unfold mul32; exact wrap32_eq_self (by omega) (by omega)
    have h3 : mul32 c.thickness 2 = c.thickness * 2 := by
      unfold mul32; exact wrap32_eq_self (by omega) (by omega)
    have h4 : add32 ((c.size + c.gap) * 2) (c.thickness * 2)
        = (c.size + c.gap) * 2 + c.thickness * 2 := by
      unfold add32; exact wrap32_eq_self (by omega) (by omega)
    have h5 : add32 ((c.size + c.gap) * 2 + c.thickness * 2) 20
        = (c.size + c.gap) * 2 + c.thickness * 2 + 20 := by
      unfold add32; exact wrap32_eq_self (by omega) (by omega)
    unfold windowSizeOf
    rw [h1, h2, h3, h4, h5]
    ring
  · unfold update_config
    by_cases h : windowSizeOf c ≠ windowSizeOf s.config
    · simp [hw, h]
    · simp [hw, h]
      rw [hinv]
      exact (not_ne_iff.mp h).symm

/-! ### Reduction of the Classic geometry under zero rotation -/

set_option maxHeartbeats 1600000 in
/-- With the rotation transform instantiated at rotation `0` and the
geometry within the f32-exact and i32 ranges, the Classic routine's four
segments reduce to the plain, unwrapped endpoint arithmetic. -/
theorem classic_rot0_plain (cx cy gap size : Int) (pen : Pen)
    (hcx : cx.natAbs ≤ 2 ^ 29) (hcy : cy.natAbs ≤ 2 ^ 29)
    (hg : gap.natAbs ≤ 2 ^ 23) (hs : size.natAbs ≤ 2 ^ 23) :
    draw_classic_crosshair (rotZero cx cy) pen cx cy gap size =
      [DrawOp.line cx (cy - gap - size) cx (cy - gap) pen,
       DrawOp.line cx (cy + gap) cx (cy + gap + size) pen,
       DrawOp.line (cx - gap - size) cy (cx - gap) cy pen,
       DrawOp.line (cx + gap) cy (cx + gap + size) cy pen] := by
  have w1 : sub32 cy gap = cy - gap := by
    unfold sub32; exact wrap32_eq_self (by omega) (by omega)
  have w2 : sub32 (cy - gap) size = cy - gap - size := by
    unfold sub32; exact wrap32_eq_self (by omega) (by omega)
  have w3 : add32 cy gap = cy + gap := by
    unfold add32; exact wrap32_eq_self (by omega) (by omega)
  have w4 : add32 (cy + gap) size = cy + gap + size := by
    unfold add32; exact wrap32_eq_self (by omega) (by omega)
  have w5 : sub32 cx gap = cx - gap := by
    unfold sub32; exact wrap32_eq_self (by omega) (by omega)
  have w6 : sub32 (cx - gap) size = cx - gap - size := by
    unfold sub32; exact wrap32_eq_self (by omega) (by omega)
  have w7 : add32 cx gap = cx + gap := by
    unfold add32; exact wrap32_eq_self (by omega) (by omega)
  have w8 : add32 (cx + gap) size = cx + gap + size := by
    unfold add32; exact wrap32_eq_self (by omega) (by omega)
  have r1 : rotZero cx cy cx (cy - gap - size) = (cx, cy - gap - size) :=
    rotZero_eq_id cx cy cx (cy - gap - size) (by omega) (by omega) (by omega) (by omega) (by omega)
      (by omega)
  have r2 : rotZero cx cy cx (cy - gap) = (cx, cy - gap) :=
    rotZero_eq_id cx cy cx (cy - gap) (by omega) (by omega) (by omega) (by omega) (by omega)
      (by omega)
  have r3 : rotZero cx cy cx (cy + gap) = (cx, cy + gap) :=
    rotZero_eq_id cx cy cx (cy + gap) (by omega) (by omega) (by omega) (by omega) (by omega)
      (by omega)
  have r4 : rotZero cx cy cx (cy + gap + size) = (cx, cy + gap + size) :=
    rotZero_eq_id cx cy cx (cy + gap + size) (by omega) (by omega) (by omega) (by omega) (by omega)
      (by omega)
  have r5 : rotZero cx cy (cx - gap - size) cy = (cx - gap - size, cy) :=
    rotZero_eq_id cx cy (cx - gap - size) cy (by omega) (by omega) (by omega) (by omega) (by omega)
      (by omega)
  have r6 : rotZero cx cy (cx - gap) cy = (cx - gap, cy) :=
    rotZero_eq_id cx cy (cx - gap) cy (by omega) (by omega) (by omega) (by omega) (by omega)
      (by omega)
  have r7 : rotZero cx cy (cx + gap) cy = (cx + gap, cy) :=
    rotZero_eq_id cx cy (cx + gap) cy (by omega) (by omega) (by omega) (by omega) (by omega)
      (by omega)
  have r8 : rotZero cx cy (cx + gap + size) cy = (cx + gap + size, cy) :=
    rotZero_eq_id cx cy (cx + gap + size) cy (by omega) (by omega) (by omega) (by omega) (by omega)
      (by omega)
  simp [draw_classic_crosshair, w1, w2, w3, w4, w5, w6, w7, w8,
    r1, r2, r3, r4, r5, r6, r7, r8]

/-- With the identity in place of the rotation transform and the geometry
within the i32 range, the Classic routine's four segments are the plain
unwrapped endpoints. -/
theorem classic_id_plain (cx cy gap size : Int) (pen : Pen)
    (hcx : cx.natAbs ≤ 2 ^ 29) (hcy : cy.natAbs ≤ 2 ^ 29)
    (hg : gap.natAbs ≤ 2 ^ 23) (hs : size.natAbs ≤ 2 ^ 23) :
    draw_classic_crosshair (fun x y => (x, y)) pen cx cy gap size =
      [DrawOp.line cx (cy - gap - size) cx (cy - gap) pen,
       DrawOp.line cx (cy + gap) cx (cy + gap + size) pen,
       DrawOp.line (cx - gap - size) cy (cx - gap) cy pen,
       DrawOp.line (cx + gap) cy (cx + gap + size) cy pen] := by
  have w1 : sub32 cy gap = cy - gap := by
    unfold sub32; exact wrap32_eq_self (by omega) (by omega)
  have w2 : sub32 (cy - gap) size = cy - gap - size := by
    unfold sub32; exact wrap32_eq_self (by omega) (by omega)
  have w3 : add32 cy gap = cy + gap := by
    unfold add32; exact wrap32_eq_self (by omega) (by omega)
  have w4 : add32 (cy + gap) size = cy + gap + size := by
    unfold add32; exact wrap32_eq_self (by omega) (by omega)
  have w5 : sub32 cx gap = cx - gap := by
    unfold sub32; exact wrap32_eq_self (by omega) (by omega)
  have w6 : sub32 (cx - gap) size = cx - gap - size := by
    unfold sub32; exact wrap32_eq_self (by omega) (by omega)
  have w7 : add32 cx gap = cx + gap := by
    unfold add32; exact wrap32_eq_self (by omega) (by omega)
  have w8 : add32 (cx + gap) size = cx + gap + size := by
    unfold add32; exact wrap32_eq_self (by omega) (by omega)
  simp [draw_classic_crosshair, w1, w2, w3, w4, w5, w6, w7, w8]

/-- C6 amended: with `rotation = 0`, the Classic rotation transform is the
identity PROVIDED the segment offsets stay within the exactly-representable
integer range of f32 and the center within `2^29`: each endpoint computed
through the i32→f32→i32 round-trip equals the unrotated endpoint.  (Without
the range bound the claim fails, see `classic_rot0_roundtrip_cex`.) -/
theorem classic_rot0_exact (cx cy gap size : Int) (pen : Pen)
    (hcx : cx.natAbs ≤ 2 ^ 29) (hcy : cy.natAbs ≤ 2 ^ 29)
    (hg : gap.natAbs ≤ 2 ^ 23) (hs : size.natAbs ≤ 2 ^ 23) :
    draw_classic_crosshair (rotZero cx cy) pen cx cy gap size =
      draw_classic_crosshair (fun x y => (x, y)) pen cx cy gap size :=
  (classic_rot0_plain cx cy gap size pen hcx hcy hg hs).trans
    (classic_id_plain cx cy gap size pen hcx hcy hg hs).symm

/-- Witness for `classic_rot0_exact` at a concrete center and geometry. -/
theorem classic_rot0_exact_witness :
    draw_classic_crosshair (rotZero 100 200) (Pen.mk 2 255) 100 200 5 10 =
      draw_classic_crosshair (fun x y => (x, y)) (Pen.mk 2 255)
        100 200 5 10 :=
  classic_rot0_exact 100 200 5 10 (Pen.mk 2 255) (by decide) (by decide)
    (by decide) (by decide)

set_option maxHeartbeats 1600000 in
/-- C6 counterexample: at rotation `0`, center `(0,0)`, `gap = 2^24` and
`size = 1`, the i32→f32→i32 round-trip rounds the offset `2^24 + 1` to
`2^24`, so the computed Classic endpoints differ from the unrotated ones. -/
theorem classic_rot0_roundtrip_cex :
    draw_classic_crosshair (rotZero 0 0) (Pen.mk 2 255) 0 0 16777216 1 ≠
      draw_classic_crosshair (fun x y => (x, y)) (Pen.mk 2 255)
        0 0 16777216 1 := by
  decide

/-- Witness for `window_bounding_box` at a concrete state and config. -/
theorem window_bounding_box_witness :
    (create_overlay_window
        (OverlayState.mk true defaultConfig 54)).osWindowSize = 54 ∧
    windowSizeOf { defaultConfig with size := 12 }
      = 2 * (12 + 5) + 2 * 2 + 20 ∧
    ((update_config true { defaultConfig with size := 12 }
        (OverlayState.mk true defaultConfig 54)).2).osWindowSize
      = windowSizeOf { defaultConfig with size := 12 } :=
  window_bounding_box { defaultConfig with size := 12 }
    (OverlayState.mk true defaultConfig 54)
    (by decide) (by decide) (by decide) rfl (by decide)

/-! ### Claims about the Custom and TShape shape passes -/

/-- C7: with style `Custom` the shape pass emits exactly `lines.length`
line segments, the i-th translated by the center; in a non-shadow pass each
segment carries its own pen (the line's thickness and repacked color), and
in the shadow pass every segment carries the already-selected pen. -/
theorem custom_shape_segments (rot : Int → Int → Int × Int) (cur : Pen)
    (cx cy : Int) (c : CrosshairConfig) (isShadow : Bool)
    (hstyle : c.style = CrosshairStyle.Custom) :
    (draw_crosshair_shape rot cur cx cy c isShadow).length
      = c.lines.length ∧
    ∀ i : Nat,
      (draw_crosshair_shape rot cur cx cy c isShadow).get? i =
        (c.lines.get? i).map fun l =>
          DrawOp.line (add32 cx l.start_x) (add32 cy l.start_y)
            (add32 cx l.end_x) (add32 cy l.end_y)
            (if isShadow then cur
             else Pen.mk l.thickness (bgr l.color)) := by
  unfold draw_crosshair_shape
  rw [hstyle]
  exact ⟨draw_custom_length cur cx cy c.lines isShadow,
    fun i => draw_custom_get? cur cx cy c.lines isShadow i⟩

/-- Witness for `custom_shape_segments` on a two-line Custom config. -/
theorem custom_shape_segments_witness :
    (draw_crosshair_shape (fun x y => (x, y)) (Pen.mk 2 255) 100 200
        cfgCustom false).length = 2 :=
  ((custom_shape_segments (fun x y => (x, y)) (Pen.mk 2 255) 100 200
      cfgCustom false rfl).1).trans rfl

/-- C8 amended: with style `TShape` the shape pass draws the horizontal
T-bar of half-length `t_length` at vertical offset `-(gap+size)`, the
vertical segment from that offset down to `-gap`, and, when `gap > 0`, the
bottom, left and right segments; within the f32-exact range these coincide
with the Classic routine's rotation-0 segments with the top one dropped
(replaced by the T-bar).  Beyond that range they differ from what the
Classic routine would produce, see `t_shape_classic_mismatch_cex`. -/
theorem t_shape_segments (rot : Int → Int → Int × Int) (cur : Pen)
    (cx cy : Int) (c : CrosshairConfig) (isShadow : Bool)
    (hstyle : c.style = CrosshairStyle.TShape)
    (_hrot0 : c.rot_degrees = 0)
    (hgap : 0 < c.gap)
    (hcx : cx.natAbs ≤ 2 ^ 29) (hcy : cy.natAbs ≤ 2 ^ 29)
    (hg : c.gap.natAbs ≤ 2 ^ 23) (hs : c.size.natAbs ≤ 2 ^ 23)
    (htl : c.t_length.natAbs ≤ 2 ^ 23) :
    draw_crosshair_shape rot cur cx cy c isShadow =
      DrawOp.line (cx - c.t_length) (cy - c.gap - c.size)
          (cx + c.t_length) (cy - c.gap - c.size) cur ::
      DrawOp.line cx (cy - c.gap - c.size) cx (cy - c.gap) cur ::
      (draw_classic_crosshair (rotZero cx cy) cur cx cy
          c.gap c.size).drop 1 := by
  have hclassic := classic_rot0_plain cx cy c.gap c.size cur hcx hcy hg hs
  rw [hclassic]
  have w1 : sub32 cy c.gap = cy - c.gap := by
    unfold sub32; exact wrap32_eq_self (by omega) (by omega)
  have w2 : sub32 (cy - c.gap) c.size = cy - c.gap - c.size := by
    unfold sub32; exact wrap32_eq_self (by omega) (by omega)
  have w3 : add32 cy c.gap = cy + c.gap := by
    unfold add32; exact wrap32_eq_self (by omega) (by omega)
  have w4 : add32 (cy + c.gap) c.size = cy + c.gap + c.size := by
    unfold add32; exact wrap32_eq_self (by omega) (by omega)
  have w5 : sub32 cx c.gap = cx - c.gap := by
    unfold sub32; exact wrap32_eq_self (by omega) (by omega)
  have w6 : sub32 (cx - c.gap) c.size = cx - c.gap - c.size := by
    unfold sub32; exact wrap32_eq_self (by omega) (by omega)
  have w7 : add32 cx c.gap = cx + c.gap := by
    unfold add32; exact wrap32_eq_self (by omega) (by omega)
  have w8 : add32 (cx + c.gap) c.size = cx + c.gap + c.size := by
    unfold add32; exact wrap32_eq_self (by omega) (by omega)
  have w9 : sub32 cx c.t_length = cx - c.t_length := by
    unfold sub32; exact wrap32_eq_self (by omega) (by omega)
  have w10 : add32 cx c.t_length = cx + c.t_length := by
    unfold add32; exact wrap32_eq_self (by omega) (by omega)
  simp [draw_crosshair_shape, hstyle, draw_t_crosshair, hgap,
    w1, w2, w3, w4, w5, w6, w7, w8, w9, w10]

/-- Witness for `t_shape_segments` on the default-geometry TShape config. -/
theorem t_shape_segments_witness :
    draw_crosshair_shape (fun x y => (x, y)) (Pen.mk 2 255) 100 200
        cfgTShape false =
      DrawOp.line (100 - cfgTShape.t_length)
          (200 - cfgTShape.gap - cfgTShape.size)
          (100 + cfgTShape.t_length)
          (200 - cfgTShape.gap - cfgTShape.size) (Pen.mk 2 255) ::
      DrawOp.line 100 (200 - cfgTShape.gap - cfgTShape.size) 100
          (200 - cfgTShape.gap) (Pen.mk 2 255) ::
      (draw_classic_crosshair (rotZero 100 200) (Pen.mk 2 255) 100 200
          cfgTShape.gap cfgTShape.size).drop 1 :=
  t_shape_segments (fun x y => (x, y)) (Pen.mk 2 255) 100 200 cfgTShape
    false rfl rfl (by decide) (by decide) (by decide) (by decide)
    (by decide) (by decide)

set_option maxHeartbeats 1600000 in
/-- C8 counterexample: for the TShape config with `gap = 2^24`, `size = 1`
at rotation `0`, the extra bottom/left/right segments drawn by the T
routine (exact integer arithmetic) differ from the corresponding segments
the Classic routine would produce (whose endpoints pass through the
i32→f32→i32 round-trip). -/
theorem t_shape_classic_mismatch_cex :
    (draw_crosshair_shape (rotZero 0 0) (Pen.mk 2 255) 0 0 cfgTBig
        false).drop 2 ≠
      (draw_classic_crosshair (rotZero 0 0) (Pen.mk 2 255) 0 0
          cfgTBig.gap cfgTBig.size).drop 1 := by
  decide

/-! ### Claims about persistence -/

/-- C5: an absent backing file makes `load_config` return the default
config and `load_presets` return the empty preset list, with no error in
either case, whatever the parse functions are. -/
theorem load_absent_defaults
    (pc : String → Except String CrosshairConfig)
    (pf : String → Except String FavoritesData) :
    load_config pc FileRead.absent = Except.ok defaultConfig ∧
    load_presets pf FileRead.absent = Except.ok [] :=
  ⟨rfl, rfl⟩

/-- C3 counterexample: on malformed config-file content, `load_config`
propagates the parse error to its caller instead of falling back to the
default config. -/
theorem load_config_malformed_cex :
    load_config failParseConfig (FileRead.content "oops")
      = Except.error "expected value" ∧
    load_config failParseConfig (FileRead.content "oops")
      ≠ Except.ok defaultConfig :=
  ⟨rfl, fun h => Except.noConfusion h⟩

/-- C3 amended: on content that fails to parse, `load_presets` falls back
to the empty preset list without error, while `load_config` propagates the
parse error to its caller. -/
theorem load_malformed_behavior
    (pc : String → Except String CrosshairConfig)
    (pf : String → Except String FavoritesData) (str e1 e2 : String)
    (hc : pc str = Except.error e1) (hf : pf str = Except.error e2) :
    load_config pc (FileRead.content str) = Except.error e1 ∧
    load_presets pf (FileRead.content str) = Except.ok [] := by
  constructor
  · simp [load_config, hc]
  · simp [load_presets, hf, Except.toOption]

/-- Witness for `load_malformed_behavior` with concrete failing parsers. -/
theorem load_malformed_behavior_witness :
    load_config failParseConfig (FileRead.content "bad")
      = Except.error "expected value" ∧
    load_presets failParseFavorites (FileRead.content "bad")
      = Except.ok [] :=
  load_malformed_behavior failParseConfig failParseFavorites "bad"
    "expected value" "expected value" rfl rfl

theorem filter_ne_filter_eq (l : List CrosshairPreset) (i : String) :
    ((l.filter fun q => q.id ≠ i).filter fun q => q.id = i) = [] := by
  induction l with
  | nil => rfl
  | cons hd tl ih =>
    by_cases h : hd.id = i <;> simp [List.filter_cons, h, ih]

theorem filter_ne_filter_ne (l : List CrosshairPreset) (i : String) :
    ((l.filter fun q => q.id ≠ i).filter fun q => q.id ≠ i)
      = l.filter fun q => q.id ≠ i := by
  induction l with
  | nil => rfl
  | cons hd tl ih =>
    by_cases h : hd.id = i <;> simp [List.filter_cons, h, ih]

/-- C4: saving a preset upserts by id: after `save_preset`, exactly one
entry with the saved preset's id exists, it is the saved preset itself
(latest name and config), and the entries with other ids are exactly those
of the prior list. -/
theorem save_preset_upsert (parse : String → Except String FavoritesData)
    (str : String) (ps : List CrosshairPreset) (p : CrosshairPreset)
    (hp : parse str = Except.ok (FavoritesData.mk ps)) :
    save_preset parse (FileRead.content str) p
      = Except.ok (save_preset_apply ps p) ∧
    ((save_preset_apply ps p).filter fun q => q.id = p.id) = [p] ∧
    ((save_preset_apply ps p).countP fun q => q.id = p.id) = 1 ∧
    ((save_preset_apply ps p).filter fun q => q.id ≠ p.id)
      = ps.filter fun q => q.id ≠ p.id := by
  refine ⟨?_, ?_, ?_, ?_⟩
  · simp [save_preset, hp, Except.toOption]
  · unfold save_preset_apply
    rw [List.filter_append, filter_ne_filter_eq]
    simp
  · unfold save_preset_apply
    rw [List.countP_eq_length_filter, List.filter_append,
      filter_ne_filter_eq]
    simp
  · unfold save_preset_apply
    rw [List.filter_append, filter_ne_filter_ne]
    simp

/-- Witness for `save_preset_upsert`: re-saving id `p1` with a new name
over a stored list holding ids `p1` and `p2`. -/
theorem save_preset_upsert_witness :
    save_preset parsePresetsAB (FileRead.content "f") presetA2
      = Except.ok (save_preset_apply [presetA, presetB] presetA2) ∧
    ((save_preset_apply [presetA, presetB] presetA2).filter
        fun q => q.id = presetA2.id) = [presetA2] ∧
    ((save_preset_apply [presetA, presetB] presetA2).countP
        fun q => q.id = presetA2.id) = 1 ∧
    ((save_preset_apply [presetA, presetB] presetA2).filter
        fun q => q.id ≠ presetA2.id)
      = [presetA, presetB].filter fun q => q.id ≠ presetA2.id :=
  save_preset_upsert parsePresetsAB "f" [presetA, presetB] presetA2 rfl

end Crosshair
